import Mathlib

/-!
Shallow embedding of the Account CRUD microservice
(`service/routes.py` of the devops-capstone repository).

The HTTP handler layer (`routes.py`) is translated function by function.
The `Account` record model (`service/models.py`) is not part of the
source tree we were given, so its persistence primitives (`create`,
`find`, `all`, `update`, `delete`) and the serialize/deserialize pair
are modelled from the specification's component contract (§3, §4.1).
The relational store is a structure holding the table rows plus the
next id the persistence layer will assign.
-/

/-- Modelled from the spec: the Account entity of §3 (`service/models.py`
is missing from the source tree).  Fields: system-assigned integer `id`,
four required text fields, and `date_joined` which defaults to the
creation date when omitted from a payload. -/
structure Account where
  id : Nat
  name : String
  email : String
  address : String
  phone_number : String
  date_joined : String
  deriving Repr, DecidableEq

/-- A parsed JSON request body, restricted to the keys the Account model
reads.  `none` means the key is absent from the mapping. -/
structure Body where
  name : Option String
  email : Option String
  address : Option String
  phone_number : Option String
  date_joined : Option String
  deriving Repr, DecidableEq

/-- Modelled from the spec: `deserialize(body)` populates the four
required text fields and the optional date field, and fails (raises a
validation error) if a required key is absent (§4.1).  `id` is never
taken from the client (§3).  Failure is `none`. -/
def Account.deserialize (a : Account) (b : Body) : Option Account :=
  match b.name, b.email, b.address, b.phone_number with
  | some n, some e, some ad, some p =>
      some { a with name := n, email := e, address := ad, phone_number := p,
                    date_joined := b.date_joined.getD a.date_joined }
  | _, _, _, _ => none

/-- Modelled from the spec: `serialize()` produces a key-value mapping
containing `id` plus all fields (§4.1). -/
def Account.serialize (a : Account) : List (String × String) :=
  [("id", toString a.id), ("name", a.name), ("email", a.email),
   ("address", a.address), ("phone_number", a.phone_number),
   ("date_joined", a.date_joined)]

/-- Modelled from the spec: the relational table owned by the
persistence layer, plus the next primary key it will assign.  The
service holds no other copy of the data (§3 Ownership). -/
structure Store where
  nextId : Nat
  rows : List Account
  deriving Repr, DecidableEq

/-- Modelled from the spec: `create()` inserts a new row and assigns
`id`; `id` is assigned only by the persistence layer on creation (§3). -/
def Store.create (s : Store) (a : Account) : Store × Account :=
  let a' := { a with id := s.nextId }
  ({ nextId := s.nextId + 1, rows := s.rows ++ [a'] }, a')

/-- Modelled from the spec: `find(id)` returns the record matching `id`,
or an absence signal if none exists (§4.1). -/
def Store.find (s : Store) (id : Nat) : Option Account :=
  s.rows.find? (fun r => r.id = id)

/-- Modelled from the spec: `update()` persists in-place changes to an
already-identified record (§4.1). -/
def Store.update (s : Store) (a : Account) : Store :=
  { s with rows := s.rows.map (fun r => if r.id = a.id then a else r) }

/-- Modelled from the spec: `delete()` removes the record (§4.1). -/
def Store.delete (s : Store) (id : Nat) : Store :=
  { s with rows := s.rows.filter (fun r => r.id ≠ id) }

/-- Response bodies, at the granularity the handlers produce: empty,
plain text, one serialized record, or an array of serialized records. -/
inductive RespBody where
  | empty : RespBody
  | text : String → RespBody
  | record : List (String × String) → RespBody
  | records : List (List (String × String)) → RespBody
  deriving Repr, DecidableEq

/-- An HTTP response: status code, body, optional Location header. -/
structure Response where
  status : Nat
  body : RespBody
  location : Option String
  deriving Repr, DecidableEq

/-- Flask's `make_response`, observed at the wire level: Werkzeug
removes the body from a 204 No Content response before it is sent
(`Response.get_app_iter` yields an empty iterable for status 204), so
whatever string the handler passed, the client receives no body. -/
def make_response (b : RespBody) (st : Nat) (loc : Option String) : Response :=
  if st = 204 then ⟨st, RespBody.empty, loc⟩ else ⟨st, b, loc⟩

/-- Modelled from the spec: the application's error handler for a
validation error raised by `deserialize` (the handler module is missing
from the source tree).  §7: a malformed or incomplete body surfaces to
the caller as 400. -/
def bad_request_response : Response :=
  ⟨400, RespBody.text "Bad Request", none⟩

/-- `check_content_type` from `routes.py`: reads the Content-Type
header; returns normally when it is present (truthy, i.e. non-empty)
and equal to the expected media type, otherwise aborts with 415.
`some r` is the abort response, `none` is a normal return. -/
def check_content_type (headerCT : Option String) (media_type : String) :
    Option Response :=
  match headerCT with
  | some ct =>
      if ct ≠ "" ∧ ct = media_type then none
      else some (make_response
        (RespBody.text ("Content-Type must be " ++ media_type)) 415 none)
  | none => some (make_response
      (RespBody.text ("Content-Type must be " ++ media_type)) 415 none)

/-- `create_accounts` from `routes.py`.  `ct` is the request's
Content-Type header (Flask's `request.content_type` and
`request.headers.get("Content-Type")` both read this same header;
`none` when absent).  `today` is the current date, used as the default
`date_joined` of a freshly constructed Account.  Guard: a Content-Type
other than exactly `application/json` returns 415 at once; then
`check_content_type` runs; then the body is deserialized into a fresh
Account (failure propagates to the 400 error handler), the record is
created, and a 201 response with the serialized record and a Location
header (the placeholder "/") is returned. -/
def create_accounts (s : Store) (ct : Option String) (body : Body)
    (today : String) : Store × Response :=
  if ct ≠ some "application/json" then
    (s, make_response (RespBody.text "Unsupported content type sent ") 415 none)
  else
    match check_content_type ct "application/json" with
    | some r => (s, r)
    | none =>
      let account : Account := ⟨0, "", "", "", "", today⟩
      match account.deserialize body with
      | none => (s, bad_request_response)
      | some acc =>
        let created := s.create acc
        (created.1, make_response (RespBody.record created.2.serialize) 201
          (some "/"))

/-- `list_accounts` from `routes.py`: serialize every record and return
them with 200. -/
def list_accounts (s : Store) : Store × Response :=
  (s, make_response (RespBody.records (s.rows.map Account.serialize)) 200 none)

/-- `read_account` from `routes.py`.  On a miss the source builds the
body with the Python f-string f"Account with id {0} not found": the
placeholder holds the constant expression 0, which formats as the
character 0 - neither the requested id nor literal braces appear in the
sent text. -/
def read_account (s : Store) (id : Nat) : Store × Response :=
  match s.find id with
  | none => (s, make_response (RespBody.text "Account with id 0 not found") 404 none)
  | some a => (s, make_response (RespBody.record a.serialize) 200 none)

/-- `update_account` from `routes.py`: the body is read first, then the
record is looked up (404 on a miss, store untouched); otherwise the body
is deserialized into the found record (failure propagates to the 400
error handler, `id` untouched), the row is updated, and the serialized
result returned with 200. -/
def update_account (s : Store) (id : Nat) (body : Body) : Store × Response :=
  match s.find id with
  | none => (s, make_response (RespBody.text "Could not find account to update") 404 none)
  | some a =>
    match a.deserialize body with
    | none => (s, bad_request_response)
    | some a' => (s.update a', make_response (RespBody.record a'.serialize) 200 none)

/-- `delete_account` from `routes.py`: 404 on a miss (store untouched);
otherwise the record is deleted and a 204 returned (the message string
the handler passes is stripped from a 204 by the framework). -/
def delete_account (s : Store) (id : Nat) : Store × Response :=
  match s.find id with
  | none => (s, make_response (RespBody.text "Could not find account to delete") 404 none)
  | some a =>
    (s.delete a.id,
     make_response (RespBody.text ("Account with " ++ toString id ++ " deleted")) 204 none)

/-- A request to one of the five /accounts routes. -/
inductive Request where
  | create : Option String → Body → String → Request
  | list : Request
  | read : Nat → Request
  | put : Nat → Body → Request
  | delete : Nat → Request
  deriving Repr, DecidableEq

/-- Dispatch one request to its handler. -/
def handle (s : Store) (r : Request) : Store × Response :=
  match r with
  | Request.create ct b today => create_accounts s ct b today
  | Request.list => list_accounts s
  | Request.read id => read_account s id
  | Request.put id b => update_account s id b
  | Request.delete id => delete_account s id

/-- Run a sequence of requests, keeping only the final store. -/
def runAll (s : Store) (rs : List Request) : Store :=
  rs.foldl (fun st r => (handle st r).1) s

/-- Whether a request is a POST create. -/
def Request.isCreate : Request → Bool
  | Request.create _ _ _ => true
  | _ => false

/-- Run N creates (one Content-Type/body/date triple each), keeping the
store. -/
def createN (s : Store) (posts : List (Option String × Body × String)) : Store :=
  posts.foldl (fun st p => (create_accounts st p.1 p.2.1 p.2.2).1) s

/-! ## Helper lemmas -/

/-- Deserialization fails exactly when some required key is absent. -/
theorem deserialize_eq_none (a : Account) (b : Body)
    (h : b.name = none ∨ b.email = none ∨ b.address = none ∨
         b.phone_number = none) :
    a.deserialize b = none := by
  cases hn : b.name <;> cases he : b.email <;> cases ha : b.address <;>
    cases hp : b.phone_number <;> simp_all [Account.deserialize]

/-! ## Claim theorems -/

/-- C1: a POST to /accounts whose Content-Type is exactly
application/json and whose body deserializes successfully yields status
201, the serialized created record as body, and a Location header. -/
theorem create_valid_json_201 (s : Store) (b : Body) (today : String)
    (a : Account)
    (h : (Account.mk 0 "" "" "" "" today).deserialize b = some a) :
    (create_accounts s (some "application/json") b today).2.status = 201 ∧
    (create_accounts s (some "application/json") b today).2.body =
      RespBody.record (Account.serialize { a with id := s.nextId }) ∧
    (create_accounts s (some "application/json") b today).2.location =
      some "/" := by
  simp [create_accounts, check_content_type, make_response, Store.create, h]

theorem create_valid_json_201_witness :
    ((Account.mk 0 "" "" "" "" "2020-01-01").deserialize
        ⟨some "n", some "e", some "a", some "p", none⟩ =
      some (Account.mk 0 "n" "e" "a" "p" "2020-01-01")) ∧
    ((create_accounts ⟨5, []⟩ (some "application/json")
        ⟨some "n", some "e", some "a", some "p", none⟩ "2020-01-01").2.status
        = 201 ∧
     (create_accounts ⟨5, []⟩ (some "application/json")
        ⟨some "n", some "e", some "a", some "p", none⟩ "2020-01-01").2.body =
      RespBody.record (Account.serialize
        { Account.mk 0 "n" "e" "a" "p" "2020-01-01" with id := 5 }) ∧
     (create_accounts ⟨5, []⟩ (some "application/json")
        ⟨some "n", some "e", some "a", some "p", none⟩ "2020-01-01").2.location
        = some "/") :=
  ⟨by decide, create_valid_json_201 ⟨5, []⟩
    ⟨some "n", some "e", some "a", some "p", none⟩ "2020-01-01"
    (Account.mk 0 "n" "e" "a" "p" "2020-01-01") (by decide)⟩

/-- C2: a POST to /accounts whose Content-Type header is not exactly
application/json returns 415 and leaves the store unchanged, for every
body. -/
theorem create_wrong_content_type_415 (s : Store) (ct : Option String)
    (b : Body) (today : String) (h : ct ≠ some "application/json") :
    (create_accounts s ct b today).2.status = 415 ∧
    (create_accounts s ct b today).1 = s := by
  simp [create_accounts, make_response, h]

theorem create_wrong_content_type_415_witness :
    (some "text/html" ≠ some "application/json") ∧
    ((create_accounts ⟨5, []⟩ (some "text/html")
        ⟨some "n", some "e", some "a", some "p", none⟩ "2020-01-01").2.status
        = 415 ∧
     (create_accounts ⟨5, []⟩ (some "text/html")
        ⟨some "n", some "e", some "a", some "p", none⟩ "2020-01-01").1 =
      ⟨5, []⟩) :=
  ⟨by decide, create_wrong_content_type_415 ⟨5, []⟩ (some "text/html")
    ⟨some "n", some "e", some "a", some "p", none⟩ "2020-01-01" (by decide)⟩

/-- C3: a POST to /accounts with Content-Type application/json whose
body is missing a required field (name, email, address or phone_number)
returns 400 and leaves the store unchanged. -/
theorem create_missing_field_400 (s : Store) (b : Body) (today : String)
    (h : b.name = none ∨ b.email = none ∨ b.address = none ∨
         b.phone_number = none) :
    (create_accounts s (some "application/json") b today).2.status = 400 ∧
    (create_accounts s (some "application/json") b today).1 = s := by
  simp [create_accounts, check_content_type, bad_request_response,
    deserialize_eq_none _ _ h]

theorem create_missing_field_400_witness :
    ((⟨some "n", none, some "a", some "p", none⟩ : Body).name = none ∨
     (⟨some "n", none, some "a", some "p", none⟩ : Body).email = none ∨
     (⟨some "n", none, some "a", some "p", none⟩ : Body).address = none ∨
     (⟨some "n", none, some "a", some "p", none⟩ : Body).phone_number = none) ∧
    ((create_accounts ⟨5, []⟩ (some "application/json")
        ⟨some "n", none, some "a", some "p", none⟩ "2020-01-01").2.status
        = 400 ∧
     (create_accounts ⟨5, []⟩ (some "application/json")
        ⟨some "n", none, some "a", some "p", none⟩ "2020-01-01").1 =
      ⟨5, []⟩) :=
  ⟨by decide, create_missing_field_400 ⟨5, []⟩
    ⟨some "n", none, some "a", some "p", none⟩ "2020-01-01" (by decide)⟩

/-- C4: on an id with no matching record, GET, PUT and DELETE each
return 404 and leave the store unchanged. -/
theorem missing_id_404 (s : Store) (id : Nat) (b : Body)
    (h : s.find id = none) :
    (read_account s id).2.status = 404 ∧ (read_account s id).1 = s ∧
    (update_account s id b).2.status = 404 ∧ (update_account s id b).1 = s ∧
    (delete_account s id).2.status = 404 ∧ (delete_account s id).1 = s := by
  simp [read_account, update_account, delete_account, make_response, h]

theorem missing_id_404_witness :
    ((⟨5, []⟩ : Store).find 3 = none) ∧
    ((read_account ⟨5, []⟩ 3).2.status = 404 ∧
     (read_account ⟨5, []⟩ 3).1 = ⟨5, []⟩ ∧
     (update_account ⟨5, []⟩ 3
        ⟨some "n", some "e", some "a", some "p", none⟩).2.status = 404 ∧
     (update_account ⟨5, []⟩ 3
        ⟨some "n", some "e", some "a", some "p", none⟩).1 = ⟨5, []⟩ ∧
     (delete_account ⟨5, []⟩ 3).2.status = 404 ∧
     (delete_account ⟨5, []⟩ 3).1 = ⟨5, []⟩) :=
  ⟨by decide, missing_id_404 ⟨5, []⟩ 3
    ⟨some "n", some "e", some "a", some "p", none⟩ (by decide)⟩

/-- C5: a DELETE of an id whose record exists returns status 204, and
the body the client receives is empty (Werkzeug strips the body of a
204 response). -/
theorem delete_existing_204_empty (s : Store) (id : Nat) (a : Account)
    (h : s.find id = some a) :
    (delete_account s id).2.status = 204 ∧
    (delete_account s id).2.body = RespBody.empty := by
  simp [delete_account, make_response, h]

theorem delete_existing_204_empty_witness :
    ((⟨2, [Account.mk 1 "n" "e" "a" "p" "d"]⟩ : Store).find 1 =
      some (Account.mk 1 "n" "e" "a" "p" "d")) ∧
    ((delete_account ⟨2, [Account.mk 1 "n" "e" "a" "p" "d"]⟩ 1).2.status
        = 204 ∧
     (delete_account ⟨2, [Account.mk 1 "n" "e" "a" "p" "d"]⟩ 1).2.body =
      RespBody.empty) :=
  ⟨by decide, delete_existing_204_empty ⟨2, [Account.mk 1 "n" "e" "a" "p" "d"]⟩
    1 (Account.mk 1 "n" "e" "a" "p" "d") (by decide)⟩

/-- C6, counterexample: on a miss, the body read_account sends is not
the literal text "Account with id {0} not found" - the source builds it
with an f-string, whose placeholder evaluates the constant 0. -/
theorem read_notfound_body_not_literal :
    (read_account ⟨1, []⟩ 7).2.body ≠
      RespBody.text "Account with id {0} not found" := by
  decide

/-- C6, amended: on a miss, GET /accounts/(id) returns 404 with body
"Account with id 0 not found" - the constant 0, whatever the requested
id was. -/
theorem read_notfound_body_constant_zero (s : Store) (id : Nat)
    (h : s.find id = none) :
    (read_account s id).2.status = 404 ∧
    (read_account s id).2.body =
      RespBody.text "Account with id 0 not found" := by
  simp [read_account, make_response, h]

theorem read_notfound_body_constant_zero_witness :
    ((⟨1, []⟩ : Store).find 7 = none) ∧
    ((read_account ⟨1, []⟩ 7).2.status = 404 ∧
     (read_account ⟨1, []⟩ 7).2.body =
      RespBody.text "Account with id 0 not found") :=
  ⟨by decide, read_notfound_body_constant_zero ⟨1, []⟩ 7 (by decide)⟩

/-- A successful create (valid content type and body) appends exactly
one row. -/
theorem create_success_rows_length (s : Store) (b : Body) (t : String)
    (h : ((Account.mk 0 "" "" "" "" t).deserialize b).isSome) :
    (create_accounts s (some "application/json") b t).1.rows.length =
      s.rows.length + 1 := by
  obtain ⟨a, ha⟩ := Option.isSome_iff_exists.mp h
  simp [create_accounts, check_content_type, Store.create, ha]

/-- Folding successful creates over a store adds one row per create. -/
theorem createN_rows_length (posts : List (Option String × Body × String)) :
    ∀ s : Store,
      (∀ p ∈ posts, p.1 = some "application/json" ∧
        ((Account.mk 0 "" "" "" "" p.2.2).deserialize p.2.1).isSome) →
      (createN s posts).rows.length = s.rows.length + posts.length := by
  induction posts with
  | nil => intro s _; simp [createN]
  | cons p rest ih =>
    intro s h
    have hp := h p (List.mem_cons_self p rest)
    have hrest : ∀ q ∈ rest, q.1 = some "application/json" ∧
        ((Account.mk 0 "" "" "" "" q.2.2).deserialize q.2.1).isSome :=
      fun q hq => h q (List.mem_cons_of_mem p hq)
    have step : (create_accounts s p.1 p.2.1 p.2.2).1.rows.length =
        s.rows.length + 1 := by
      rw [hp.1]; exact create_success_rows_length s p.2.1 p.2.2 hp.2
    have tail := ih (create_accounts s p.1 p.2.1 p.2.2).1 hrest
    have hdef : createN s (p :: rest) =
        createN (create_accounts s p.1 p.2.1 p.2.2).1 rest := rfl
    rw [hdef, tail, step, List.length_cons]
    omega

/-- C7: starting from an empty store, after N successful creates and no
deletes, list_accounts returns 200 and an array of exactly N records. -/
theorem list_after_n_creates (k : Nat)
    (posts : List (Option String × Body × String))
    (h : ∀ p ∈ posts, p.1 = some "application/json" ∧
        ((Account.mk 0 "" "" "" "" p.2.2).deserialize p.2.1).isSome) :
    (list_accounts (createN ⟨k, []⟩ posts)).2.status = 200 ∧
    ∃ l, (list_accounts (createN ⟨k, []⟩ posts)).2.body =
        RespBody.records l ∧ l.length = posts.length := by
  have hlen := createN_rows_length posts ⟨k, []⟩ h
  refine ⟨by simp [list_accounts, make_response],
    (createN ⟨k, []⟩ posts).rows.map Account.serialize,
    by simp [list_accounts, make_response], ?_⟩
  simp only [List.length_map, hlen]
  simp

theorem list_after_n_creates_witness :
    (∀ p ∈ [((some "application/json" : Option String),
              ((⟨some "n1", some "e1", some "a1", some "p1", none⟩ : Body),
               "d1")),
            ((some "application/json" : Option String),
              ((⟨some "n2", some "e2", some "a2", some "p2", some "dx"⟩ : Body),
               "d2"))],
        p.1 = some "application/json" ∧
        ((Account.mk 0 "" "" "" "" p.2.2).deserialize p.2.1).isSome) ∧
    ((list_accounts (createN ⟨1, []⟩
        [((some "application/json" : Option String),
           ((⟨some "n1", some "e1", some "a1", some "p1", none⟩ : Body),
            "d1")),
         ((some "application/json" : Option String),
           ((⟨some "n2", some "e2", some "a2", some "p2", some "dx"⟩ : Body),
            "d2"))])).2.status = 200 ∧
     ∃ l, (list_accounts (createN ⟨1, []⟩
        [((some "application/json" : Option String),
           ((⟨some "n1", some "e1", some "a1", some "p1", none⟩ : Body),
            "d1")),
         ((some "application/json" : Option String),
           ((⟨some "n2", some "e2", some "a2", some "p2", some "dx"⟩ : Body),
            "d2"))])).2.body = RespBody.records l ∧ l.length = 2) :=
  ⟨by decide, list_after_n_creates 1 _ (by decide)⟩

/-- A record returned by find carries the id it was looked up by. -/
theorem Store.find_id (s : Store) (id : Nat) (a : Account)
    (h : s.find id = some a) : a.id = id := by
  have h' : s.rows.find? (fun r => r.id = id) = some a := h
  simpa using List.find?_some h'

/-- After updating with a record whose id is the one a find succeeded
on, find returns the updated record. -/
theorem find?_map_update (rows : List Account) (id : Nat) (a a' : Account)
    (hid : a'.id = id)
    (h : rows.find? (fun r => r.id = id) = some a) :
    (rows.map (fun r => if r.id = a'.id then a' else r)).find?
      (fun r => r.id = id) = some a' := by
  induction rows with
  | nil => simp at h
  | cons r rest ih =>
    by_cases hr : r.id = id
    · have hra : r.id = a'.id := by rw [hid, hr]
      simp [List.find?_cons, hra, hid]
    · have hra : ¬r.id = a'.id := by rw [hid]; exact hr
      rw [List.find?_cons] at h
      simp [hr] at h
      simp [List.find?_cons, hra, hr, ih h]

/-- Store-level version of find?_map_update. -/
theorem Store.find_update_found (s : Store) (id : Nat) (a a' : Account)
    (hid : a'.id = id) (h : s.find id = some a) :
    (s.update a').find id = some a' := by
  have h' : s.rows.find? (fun r => r.id = id) = some a := h
  simpa [Store.update, Store.find] using find?_map_update s.rows id a a' hid h'

/-- C8: a PUT to an existing id with a valid body returns 200 carrying
the new name, replaces every mutable field with the body's value, and
leaves the id unchanged (both in the response and in the store). -/
theorem update_replaces_mutable_fields (s : Store) (id : Nat) (a : Account)
    (b : Body) (n e ad p : String)
    (hf : s.find id = some a) (hn : b.name = some n) (he : b.email = some e)
    (ha : b.address = some ad) (hp : b.phone_number = some p) :
    (update_account s id b).2.status = 200 ∧
    (update_account s id b).2.body =
      RespBody.record (Account.serialize
        ⟨a.id, n, e, ad, p, b.date_joined.getD a.date_joined⟩) ∧
    (update_account s id b).1.find id =
      some ⟨a.id, n, e, ad, p, b.date_joined.getD a.date_joined⟩ := by
  have hdes : a.deserialize b =
      some ⟨a.id, n, e, ad, p, b.date_joined.getD a.date_joined⟩ := by
    simp [Account.deserialize, hn, he, ha, hp]
  have hid : (⟨a.id, n, e, ad, p, b.date_joined.getD a.date_joined⟩ :
      Account).id = id := Store.find_id s id a hf
  refine ⟨?_, ?_, ?_⟩
  · simp [update_account, hf, hdes, make_response]
  · simp [update_account, hf, hdes, make_response]
  · have hst : (update_account s id b).1 =
        s.update ⟨a.id, n, e, ad, p, b.date_joined.getD a.date_joined⟩ := by
      simp [update_account, hf, hdes]
    rw [hst]
    exact Store.find_update_found s id a _ hid hf

theorem update_replaces_mutable_fields_witness :
    ((⟨2, [Account.mk 1 "old" "oe" "oa" "op" "od"]⟩ : Store).find 1 =
        some (Account.mk 1 "old" "oe" "oa" "op" "od") ∧
     (⟨some "new", some "e2", some "a2", some "p2", some "d2"⟩ : Body).name =
        some "new" ∧
     (⟨some "new", some "e2", some "a2", some "p2", some "d2"⟩ : Body).email =
        some "e2" ∧
     (⟨some "new", some "e2", some "a2", some "p2", some "d2"⟩ : Body).address =
        some "a2" ∧
     (⟨some "new", some "e2", some "a2", some "p2",
        some "d2"⟩ : Body).phone_number = some "p2") ∧
    ((update_account ⟨2, [Account.mk 1 "old" "oe" "oa" "op" "od"]⟩ 1
        ⟨some "new", some "e2", some "a2", some "p2", some "d2"⟩).2.status
        = 200 ∧
     (update_account ⟨2, [Account.mk 1 "old" "oe" "oa" "op" "od"]⟩ 1
        ⟨some "new", some "e2", some "a2", some "p2", some "d2"⟩).2.body =
      RespBody.record (Account.serialize
        ⟨1, "new", "e2", "a2", "p2",
          (⟨some "new", some "e2", some "a2", some "p2",
            some "d2"⟩ : Body).date_joined.getD "od"⟩) ∧
     (update_account ⟨2, [Account.mk 1 "old" "oe" "oa" "op" "od"]⟩ 1
        ⟨some "new", some "e2", some "a2", some "p2", some "d2"⟩).1.find 1 =
      some ⟨1, "new", "e2", "a2", "p2",
        (⟨some "new", some "e2", some "a2", some "p2",
          some "d2"⟩ : Body).date_joined.getD "od"⟩) :=
  ⟨by decide, update_replaces_mutable_fields
    ⟨2, [Account.mk 1 "old" "oe" "oa" "op" "od"]⟩ 1
    (Account.mk 1 "old" "oe" "oa" "op" "od")
    ⟨some "new", some "e2", some "a2", some "p2", some "d2"⟩
    "new" "e2" "a2" "p2" (by decide) (by decide) (by decide) (by decide)
    (by decide)⟩

/-- Deleting an id removes every record with that id. -/
theorem Store.find_delete_self (s : Store) (id : Nat) :
    (s.delete id).find id = none := by
  rw [Store.find, List.find?_eq_none]
  intro r hr
  have := List.of_mem_filter hr
  simpa using this

/-- Deleting cannot make an absent id present. -/
theorem Store.find_none_delete (s : Store) (x id : Nat)
    (h : s.find id = none) : (s.delete x).find id = none := by
  rw [Store.find, List.find?_eq_none] at h ⊢
  intro r hr
  exact h r (List.mem_of_mem_filter hr)

/-- Updating cannot make an absent id present: every row keeps an id
that was already in the table. -/
theorem Store.find_none_update (s : Store) (a' : Account) (id : Nat)
    (h : s.find id = none) : (s.update a').find id = none := by
  rw [Store.find, List.find?_eq_none] at h ⊢
  intro r hr
  obtain ⟨r0, hr0, rfl⟩ := List.mem_map.mp hr
  by_cases h0 : r0.id = a'.id
  · rw [if_pos h0]
    have hr0id := h r0 hr0
    simp only [decide_eq_true_eq] at hr0id ⊢
    rw [← h0]
    exact hr0id
  · rw [if_neg h0]
    exact h r0 hr0

/-- Any non-create request leaves an absent id absent. -/
theorem handle_no_create_preserves_absence (st : Store) (r : Request)
    (id : Nat) (hnc : r.isCreate = false) (h : st.find id = none) :
    (handle st r).1.find id = none := by
  cases r with
  | create ct b t => simp [Request.isCreate] at hnc
  | list => simpa [handle, list_accounts]
  | read i => cases hf : st.find i <;> simp [handle, read_account, hf, h]
  | put i b =>
    cases hf : st.find i with
    | none => simpa [handle, update_account, hf]
    | some a0 =>
      cases hd : a0.deserialize b with
      | none => simpa [handle, update_account, hf, hd]
      | some a' =>
        simp only [handle, update_account, hf, hd]
        exact Store.find_none_update st a' id h
  | delete i =>
    cases hf : st.find i with
    | none => simpa [handle, delete_account, hf]
    | some a0 =>
      simp only [handle, delete_account, hf]
      exact Store.find_none_delete st a0.id id h

/-- A sequence of non-create requests leaves an absent id absent. -/
theorem runAll_no_create_preserves (rs : List Request) (id : Nat) :
    ∀ s : Store, (∀ r ∈ rs, r.isCreate = false) → s.find id = none →
      (runAll s rs).find id = none := by
  induction rs with
  | nil => intro s _ h; simpa [runAll]
  | cons r rest ih =>
    intro s hall h
    have h1 := handle_no_create_preserves_absence s r id
      (hall r (List.mem_cons_self r rest)) h
    have hdef : runAll s (r :: rest) = runAll (handle s r).1 rest := rfl
    rw [hdef]
    exact ih (handle s r).1 (fun q hq => hall q (List.mem_cons_of_mem r hq)) h1

/-- C9: after a successful DELETE (status 204), a GET on the same id
returns 404, and it keeps returning 404 after any further sequence of
requests that contains no create. -/
theorem delete_observable_permanent (s : Store) (id : Nat) (a : Account)
    (h : s.find id = some a) :
    (delete_account s id).2.status = 204 ∧
    (read_account (delete_account s id).1 id).2.status = 404 ∧
    ∀ rs : List Request, (∀ r ∈ rs, r.isCreate = false) →
      (read_account (runAll (delete_account s id).1 rs) id).2.status =
        404 := by
  have haid : a.id = id := Store.find_id s id a h
  have hdel : (delete_account s id).1 = s.delete id := by
    simp [delete_account, h, haid]
  have habs : (delete_account s id).1.find id = none := by
    rw [hdel]; exact Store.find_delete_self s id
  refine ⟨by simp [delete_account, h, make_response], ?_, ?_⟩
  · simp [read_account, habs, make_response]
  · intro rs hrs
    have := runAll_no_create_preserves rs id _ hrs habs
    simp [read_account, this, make_response]

theorem delete_observable_permanent_witness :
    ((⟨2, [Account.mk 1 "n" "e" "a" "p" "d"]⟩ : Store).find 1 =
      some (Account.mk 1 "n" "e" "a" "p" "d")) ∧
    ((delete_account ⟨2, [Account.mk 1 "n" "e" "a" "p" "d"]⟩ 1).2.status
        = 204 ∧
     (read_account
        (delete_account ⟨2, [Account.mk 1 "n" "e" "a" "p" "d"]⟩ 1).1
        1).2.status = 404 ∧
     ∀ rs : List Request, (∀ r ∈ rs, r.isCreate = false) →
       (read_account
          (runAll (delete_account ⟨2, [Account.mk 1 "n" "e" "a" "p" "d"]⟩
            1).1 rs) 1).2.status = 404) :=
  ⟨by decide, delete_observable_permanent
    ⟨2, [Account.mk 1 "n" "e" "a" "p" "d"]⟩ 1
    (Account.mk 1 "n" "e" "a" "p" "d") (by decide)⟩

/-- C10: the abort branch of check_content_type is unreachable from
create_accounts: with the header the preceding exact-equality guard
guarantees, check_content_type returns without aborting, and no
response create_accounts produces carries check_content_type's abort
body. -/
theorem check_content_type_abort_unreachable (s : Store)
    (ct : Option String) (b : Body) (t : String) :
    check_content_type (some "application/json") "application/json" =
      none ∧
    (create_accounts s ct b t).2.body ≠
      RespBody.text "Content-Type must be application/json" := by
  have hchk : check_content_type (some "application/json")
      "application/json" = none := by decide
  refine ⟨hchk, ?_⟩
  by_cases hct : ct = some "application/json"
  · subst hct
    cases hd : (Account.mk 0 "" "" "" "" t).deserialize b with
    | none =>
      simp only [create_accounts, hchk, hd, ne_eq, not_true_eq_false,
        if_false, bad_request_response]
      decide
    | some a =>
      simp [create_accounts, hchk, hd, make_response]
  · have hgoal : (create_accounts s ct b t).2 =
        make_response (RespBody.text "Unsupported content type sent ")
          415 none := by
      simp [create_accounts, hct]
    rw [hgoal]
    decide
